import Mathlib

/-!
Verification of the `pydp700` driver (`src/pydp700/dp700.py`).

The driver is a synchronous command/response wrapper over a byte-oriented
serial transport.  We embed it shallowly: the serial port becomes an explicit
state record carrying the list of byte strings written so far and the scripted
list of upcoming `readline` results; every driver operation becomes a function
from that state to a new state together with an `Except`-value for the
Python-level result (exceptions made explicit).  Bytes are natural numbers,
byte strings are lists of naturals.
-/

/-- Byte strings exchanged with the serial transport (`bytes` in Python). -/
abbrev Bytes := List Nat

/-! ### UTF-8 encoding and decoding

The driver builds every command with `str.encode("utf-8")` and decodes
responses with `bytes.decode("utf-8")`.  We model both directions over
`Bytes`, including the strict checks Python's UTF-8 codec performs
(no overlong forms, no surrogates, nothing above U+10FFFF). -/

/-- UTF-8 encoding of a single Unicode scalar value. -/
def encodeChar (c : Char) : Bytes :=
  let n := c.toNat
  if n ≤ 0x7F then [n]
  else if n ≤ 0x7FF then [0xC0 + n / 64, 0x80 + n % 64]
  else if n ≤ 0xFFFF then [0xE0 + n / 4096, 0x80 + n / 64 % 64, 0x80 + n % 64]
  else [0xF0 + n / 262144, 0x80 + n / 4096 % 64, 0x80 + n / 64 % 64, 0x80 + n % 64]

/-- `str.encode("utf-8")`. -/
def encodeUtf8 (s : String) : Bytes :=
  s.data.flatMap encodeChar

/-- A UTF-8 continuation byte, `0x80`–`0xBF`. -/
def isCont (b : Nat) : Bool :=
  0x80 ≤ b && b ≤ 0xBF

/-- Strict UTF-8 decoding of a byte list into scalar values, as performed by
`bytes.decode("utf-8")`: `none` models `UnicodeDecodeError`. -/
def decodeUtf8Chars : List Nat → Option (List Char)
  | [] => some []
  | b :: rest =>
    if b ≤ 0x7F then
      (decodeUtf8Chars rest).map (fun cs => Char.ofNat b :: cs)
    else if 0xC2 ≤ b && b ≤ 0xDF then
      match rest with
      | b1 :: rest2 =>
        if isCont b1 then
          (decodeUtf8Chars rest2).map
            (fun cs => Char.ofNat ((b - 0xC0) * 64 + (b1 - 0x80)) :: cs)
        else none
      | [] => none
    else if 0xE0 ≤ b && b ≤ 0xEF then
      match rest with
      | b1 :: b2 :: rest2 =>
        let lowOk :=
          if b = 0xE0 then 0xA0 ≤ b1 && b1 ≤ 0xBF
          else if b = 0xED then 0x80 ≤ b1 && b1 ≤ 0x9F
          else isCont b1
        if lowOk && isCont b2 then
          (decodeUtf8Chars rest2).map
            (fun cs =>
              Char.ofNat ((b - 0xE0) * 4096 + (b1 - 0x80) * 64 + (b2 - 0x80)) :: cs)
        else none
      | _ => none
    else if 0xF0 ≤ b && b ≤ 0xF4 then
      match rest with
      | b1 :: b2 :: b3 :: rest2 =>
        let lowOk :=
          if b = 0xF0 then 0x90 ≤ b1 && b1 ≤ 0xBF
          else if b = 0xF4 then 0x80 ≤ b1 && b1 ≤ 0x8F
          else isCont b1
        if lowOk && isCont b2 && isCont b3 then
          (decodeUtf8Chars rest2).map
            (fun cs =>
              Char.ofNat ((b - 0xF0) * 262144 + (b1 - 0x80) * 4096 +
                (b2 - 0x80) * 64 + (b3 - 0x80)) :: cs)
        else none
      | _ => none
    else none

/-- `bytes.decode("utf-8")`; `none` models `UnicodeDecodeError`. -/
def decodeUtf8 (bs : Bytes) : Option String :=
  (decodeUtf8Chars bs).map String.mk

/-! ### The Python `float` built-in

`_decode_response` first tries `float(response)` on the raw bytes; Python's
`float` accepts an ASCII decimal literal with optional surrounding whitespace,
sign, fraction, exponent, underscore digit separators, and the special values
`inf`/`infinity`/`nan` (case-insensitively).  We model the accepted language
faithfully; the numeric value of a finite literal is idealised as the exact
rational it denotes (binary floating-point rounding is immaterial here: no
claim inspects a decoded number's magnitude). -/

/-- Value of a successful Python `float()` call. -/
inductive PyFloatVal where
  | finite (q : ℚ)
  | posInf
  | negInf
  | nan
  deriving DecidableEq, Repr

/-- ASCII whitespace stripped by `float()`. -/
def isPyWs (b : Nat) : Bool :=
  b = 32 || b = 9 || b = 10 || b = 13 || b = 11 || b = 12

/-- ASCII decimal digit. -/
def isDigitB (b : Nat) : Bool :=
  48 ≤ b && b ≤ 57

/-- Lower-case an ASCII byte. -/
def toLowerB (b : Nat) : Nat :=
  if 65 ≤ b && b ≤ 90 then b + 32 else b

/-- Consume a run of digits possibly containing underscores between digits,
accumulating the value and the count of digits consumed. -/
def digitsLoop (acc : Nat) (count : Nat) : List Nat → Nat × Nat × List Nat
  | [] => (acc, count, [])
  | b :: rest =>
    if isDigitB b then digitsLoop (acc * 10 + (b - 48)) (count + 1) rest
    else if b = 95 then
      match rest with
      | b2 :: rest2 =>
        if isDigitB b2 then digitsLoop (acc * 10 + (b2 - 48)) (count + 1) rest2
        else (acc, count, b :: rest)
      | [] => (acc, count, [b])
    else (acc, count, b :: rest)

/-- Parse `digits [. digits] [exponent]` after the sign; returns the exact
rational value and the unconsumed input. -/
def parsePyNumber (bs : List Nat) : Option (ℚ × List Nat) :=
  let (ipart, icount, rest1) := digitsLoop 0 0 bs
  let (fpart, fcount, rest2) :=
    match rest1 with
    | 46 :: rest1' => digitsLoop 0 0 rest1'
    | _ => (0, 0, rest1)
  if icount + fcount = 0 then none
  else
    let mantissa : ℚ := (ipart : ℚ) + (fpart : ℚ) / ((10 : ℚ) ^ fcount)
    match rest2 with
    | e :: rest3 =>
      if toLowerB e = 101 then
        let (eneg, rest4) :=
          match rest3 with
          | 43 :: r => (false, r)
          | 45 :: r => (true, r)
          | r => (false, r)
        let (eval, ecount, rest5) := digitsLoop 0 0 rest4
        if ecount = 0 then none
        else
          some (if eneg then mantissa / ((10 : ℚ) ^ eval)
                else mantissa * ((10 : ℚ) ^ eval), rest5)
      else some (mantissa, rest2)
    | [] => some (mantissa, [])

/-- `float(bytes)`: `none` models `ValueError`. -/
def pyFloat (bs : Bytes) : Option PyFloatVal :=
  let s := ((bs.dropWhile isPyWs).reverse.dropWhile isPyWs).reverse
  let (neg, s1) :=
    match s with
    | 43 :: r => (false, r)
    | 45 :: r => (true, r)
    | r => (false, r)
  let low := s1.map toLowerB
  if low = (String.toList "inf").map Char.toNat ||
      low = (String.toList "infinity").map Char.toNat then
    some (if neg then .negInf else .posInf)
  else if low = (String.toList "nan").map Char.toNat then
    some .nan
  else
    match parsePyNumber s1 with
    | some (q, []) => some (.finite (if neg then -q else q))
    | _ => none

/-! ### Responses, errors and the serial port -/

/-- A decoded response: `float` on success, else the UTF-8 text
(the dynamic type returned by `_decode_response`). -/
inductive ResponseValue where
  | number (v : PyFloatVal)
  | text (s : String)
  deriving DecidableEq, Repr

/-- The Python exceptions the embedded driver code can raise. -/
inductive PyError where
  | unicodeDecodeError
  | indexError
  | attributeError
  deriving DecidableEq, Repr

/-- `PowerSupply._decode_response`: try `float(response)`; on `ValueError`
fall back to `response.decode("utf-8")`, whose own failure propagates. -/
def decodeResponse (response : Bytes) : Except PyError ResponseValue :=
  match pyFloat response with
  | some v => .ok (.number v)
  | none =>
    match decodeUtf8 response with
    | some s => .ok (.text s)
    | none => .error .unicodeDecodeError

/-- The serial transport: the byte strings written so far (one entry per
`write` call), the scripted upcoming `readline` results, and whether
`close` has been called. -/
structure SerialPort where
  written : List Bytes
  pending : List Bytes
  closed : Bool
  deriving DecidableEq, Repr

/-- `serial.Serial.write`. -/
def writePort (p : SerialPort) (data : Bytes) : SerialPort :=
  { p with written := p.written ++ [data] }

/-- `serial.Serial.readline`: the next scripted line, or `b""` when the read
times out with no data. -/
def readlinePort (p : SerialPort) : Bytes × SerialPort :=
  match p.pending with
  | [] => ([], p)
  | d :: rest => (d, { p with pending := rest })

/-- `PowerSupply._execute_command`: write the command, read one line, drop the
final byte (`data[:-1]`), decode. -/
def executeCommand (command : Bytes) (p : SerialPort) :
    SerialPort × Except PyError ResponseValue :=
  let p1 := writePort p command
  let (data, p2) := readlinePort p1
  (p2, decodeResponse data.dropLast)

/-! ### Python number formatting

Commands are built with `'...{}...'.format(arg)`, i.e. `str(arg)`.  For the
memory index (a Python `int`) `str` agrees with Lean's `toString` on `ℤ`.
For voltage/current arguments we idealise the Python float as the exact
rational it denotes and render terminating decimals the way `str(float)`
does (`30.0`, `12.5`); the claims treat the rendered value abstractly. -/

/-- Decimal digits of `n`, left-padded with zeros to `minLen` characters. -/
def natDigitsPadded (n minLen : Nat) : String :=
  let s := toString n
  String.mk (List.replicate (minLen - s.length) '0') ++ s

/-- Least `k` with `q * 10 ^ k` integral, when one exists below the search
bound (it always does for the dyadic values a float denotes). -/
def pow10Exp (q : ℚ) : Option Nat :=
  (List.range 400).find? (fun k => (q * (10 : ℚ) ^ k).den = 1)

/-- `str(float)` for the rational idealisation of the argument. -/
def formatPyFloat (q : ℚ) : String :=
  let sign := if q < 0 then "-" else ""
  let a := |q|
  match pow10Exp a with
  | some 0 => sign ++ toString a.num ++ ".0"
  | some k =>
    let s := natDigitsPadded (a * (10 : ℚ) ^ k).num.toNat (k + 1)
    sign ++ s.take (s.length - k) ++ "." ++ s.drop (s.length - k)
  | none => sign ++ toString a

/-! ### The driver -/

/-- The static model table `MODEL_PARAMETERS`, giving
`(max_voltage, max_current)`. -/
def MODEL_PARAMETERS (model : String) : Option (ℚ × ℚ) :=
  if model = "DP711" then some (30, 5)
  else if model = "DP712" then some (50, 3)
  else none

/-- The driver's cached state after `__init__`. -/
structure PowerSupply where
  manufacturer : String
  model : String
  serial : String
  softwareVersion : String
  id : String
  maxVoltage : Option ℚ
  maxCurrent : Option ℚ
  deriving DecidableEq, Repr

/-- Python `str.split(',')` on the character list of a string: maximal runs
between commas, so the result always has one more element than the number of
commas (`''.split(',') == ['']`). -/
def splitCommaChars : List Char → List (List Char)
  | [] => [[]]
  | ch :: rest =>
    if ch = ',' then [] :: splitCommaChars rest
    else
      match splitCommaChars rest with
      | h :: t => (ch :: h) :: t
      | [] => [[ch]]

/-- Python `str.split(',')`. -/
def pySplitComma (s : String) : List String :=
  (splitCommaChars s.data).map String.mk

/-- `PowerSupply._get_device_identification`: issue `*IDN?`, split the decoded
text on commas and take fields 0–3.  A numeric response has no `split`
(`AttributeError`); fewer than four fields is an `IndexError`. -/
def getDeviceIdentification (p : SerialPort) :
    SerialPort × Except PyError (String × String × String × String) :=
  let pr := executeCommand (encodeUtf8 "*IDN?\n") p
  match pr.2 with
  | .error e => (pr.1, .error e)
  | .ok (.number _) => (pr.1, .error .attributeError)
  | .ok (.text s) =>
    match pySplitComma s with
    | v0 :: v1 :: v2 :: v3 :: _ => (pr.1, .ok (v0, v1, v2, v3))
    | _ => (pr.1, .error .indexError)

/-- `PowerSupply.__init__` after the port is open: identification query,
cached id string, model-limit lookup with the `KeyError` branch printing a
warning (returned as the list of emitted warnings) and disabling limits. -/
def initPowerSupply (p : SerialPort) :
    SerialPort × Except PyError (PowerSupply × List String) :=
  let pr := getDeviceIdentification p
  match pr.2 with
  | .error e => (pr.1, .error e)
  | .ok (man, mdl, ser, sw) =>
    let id := man ++ " " ++ mdl ++ " " ++ sw
    match MODEL_PARAMETERS mdl with
    | some (mv, mc) =>
      (pr.1, .ok (⟨man, mdl, ser, sw, id, some mv, some mc⟩, []))
    | none =>
      (pr.1, .ok (⟨man, mdl, ser, sw, id, none, none⟩,
        ["<WARNING> " ++ mdl ++ " is unsupported!"]))

/-- The limit guard `self._max is None or value <= self._max`. -/
def limitAllows (limit : Option ℚ) (value : ℚ) : Bool :=
  match limit with
  | none => true
  | some m => value ≤ m

/-- `PowerSupply.set_output_voltage`. -/
def set_output_voltage (ps : PowerSupply) (voltage : ℚ) (p : SerialPort) :
    SerialPort × Except PyError Unit :=
  if limitAllows ps.maxVoltage voltage then
    let pr := executeCommand (encodeUtf8 (":VOLT " ++ formatPyFloat voltage ++ "\n")) p
    (pr.1, pr.2.map fun _ => ())
  else (p, .ok ())

/-- `PowerSupply.set_output_current`. -/
def set_output_current (ps : PowerSupply) (current : ℚ) (p : SerialPort) :
    SerialPort × Except PyError Unit :=
  if limitAllows ps.maxCurrent current then
    let pr := executeCommand (encodeUtf8 (":CURR " ++ formatPyFloat current ++ "\n")) p
    (pr.1, pr.2.map fun _ => ())
  else (p, .ok ())

/-- `PowerSupply.get_output_voltage`. -/
def get_output_voltage (p : SerialPort) : SerialPort × Except PyError ResponseValue :=
  executeCommand (encodeUtf8 ":MEAS:VOLT? CH1\n") p

/-- `PowerSupply.recall_from_memory`, with the guard exactly as written in
the source: `index >= 1 or index <= 10`. -/
def recall_from_memory (index : ℤ) (p : SerialPort) :
    SerialPort × Except PyError Unit :=
  if index ≥ 1 ∨ index ≤ 10 then
    let pr := executeCommand (encodeUtf8 (":MEM:LOAD RSF," ++ toString index ++ "\n")) p
    (pr.1, pr.2.map fun _ => ())
  else (p, .ok ())

/-- `PowerSupply.save_to_memory`, guard exactly as in the source. -/
def save_to_memory (index : ℤ) (p : SerialPort) :
    SerialPort × Except PyError Unit :=
  if index ≥ 1 ∨ index ≤ 10 then
    let pr := executeCommand (encodeUtf8 (":MEM:STOR RSF," ++ toString index ++ "\n")) p
    (pr.1, pr.2.map fun _ => ())
  else (p, .ok ())

/-- Python `==` between the dynamic response value and the string `'ON'`:
a float never equals a string. -/
def responseEqON : ResponseValue → Bool
  | .text s => s = "ON"
  | .number _ => false

/-- `PowerSupply.is_output_enabled`.  The command string in the source is
`':OUTP:STAT? CH1 \n'`, with a space before the line feed. -/
def is_output_enabled (p : SerialPort) : SerialPort × Except PyError Bool :=
  let pr := executeCommand (encodeUtf8 ":OUTP:STAT? CH1 \n") p
  (pr.1, pr.2.map responseEqON)

/-- `PowerSupply.get_identification`: the cached string. -/
def get_identification (ps : PowerSupply) : String :=
  ps.id

/-- `PowerSupply.__exit__`: send `:SYST:LOC` and then close the port; an
exception from the command execution would skip the close. -/
def exitPowerSupply (p : SerialPort) : SerialPort × Except PyError Unit :=
  let pr := executeCommand (encodeUtf8 ":SYST:LOC\n") p
  match pr.2 with
  | .ok _ => ({ pr.1 with closed := true }, .ok ())
  | .error e => (pr.1, .error e)

/-- The `with` statement around an already-constructed driver: run the body,
then `__exit__` on every path; an exception raised by `__exit__` replaces the
body's outcome, otherwise the body's outcome (value or exception)
propagates. -/
def runScoped {α : Type} (body : SerialPort → SerialPort × Except PyError α)
    (p : SerialPort) : SerialPort × Except PyError α :=
  let pr := body p
  let prexit := exitPowerSupply pr.1
  match prexit.2 with
  | .error e => (prexit.1, .error e)
  | .ok _ => (prexit.1, pr.2)

/-- `Except` success test. -/
def exceptIsOk {ε α : Type} : Except ε α → Bool
  | .ok _ => true
  | .error _ => false

/-- The driver state cached for a DP711 reporting
`RIGOL,DP711,SN123,1.02`. -/
def psDP711 : PowerSupply :=
  ⟨"RIGOL", "DP711", "SN123", "1.02", "RIGOL DP711 1.02", some 30, some 5⟩

/-! ### Helper lemmas -/

/-- One command execution appends exactly the command to the write log,
consumes the next scripted line (an empty read stands for a timeout), and
returns the decode of that line without its final byte. -/
theorem executeCommand_eq (cmd : Bytes) (p : SerialPort) :
    executeCommand cmd p =
      (⟨p.written ++ [cmd], p.pending.tail, p.closed⟩,
       decodeResponse (p.pending.headD []).dropLast) := by
  unfold executeCommand writePort readlinePort
  rcases hp : p.pending with _ | ⟨d, rest⟩ <;> simp [hp]

/-- `__exit__` appends exactly one `:SYST:LOC` command to the write log,
whether or not its own command execution succeeds. -/
theorem exitPowerSupply_written (p : SerialPort) :
    (exitPowerSupply p).1.written = p.written ++ [encodeUtf8 ":SYST:LOC\n"] := by
  unfold exitPowerSupply
  simp only [executeCommand_eq]
  split <;> simp

/-! ### Claim theorems -/

/-- C2: the guard `index >= 1 or index <= 10` is true for every integer, so
`recall_from_memory(index)` and `save_to_memory(index)` — including at the
out-of-range indices 0 and 11 — always write their command
(`:MEM:LOAD RSF,{index}` resp. `:MEM:STOR RSF,{index}` plus a newline). -/
theorem memory_guard_always_executes (index : ℤ) (p : SerialPort) :
    (index ≥ 1 ∨ index ≤ 10) ∧
    (recall_from_memory index p).1.written
      = p.written ++ [encodeUtf8 (":MEM:LOAD RSF," ++ toString index ++ "\n")] ∧
    (save_to_memory index p).1.written
      = p.written ++ [encodeUtf8 (":MEM:STOR RSF," ++ toString index ++ "\n")] := by
  have hg : index ≥ 1 ∨ index ≤ 10 := by omega
  refine ⟨hg, ?_, ?_⟩ <;>
    simp [recall_from_memory, save_to_memory, if_pos hg, executeCommand_eq]

/-- C10: command execution removes the final byte of whatever `readline`
returned before decoding — even when that byte is not a newline — and an
empty read (timeout) decodes to the empty string. -/
theorem execute_strips_final_byte (cmd pre : Bytes) (b : Nat)
    (w pend : List Bytes) (c : Bool) :
    (executeCommand cmd ⟨w, (pre ++ [b]) :: pend, c⟩).2 = decodeResponse pre ∧
    (executeCommand cmd ⟨w, [], c⟩).2 = .ok (.text "") ∧
    (executeCommand cmd ⟨w, [] :: pend, c⟩).2 = .ok (.text "") := by
  refine ⟨?_, ?_, ?_⟩ <;> simp [executeCommand_eq] <;> rfl

/-- C8 (counterexample): with no scripted response — `readline` times out and
returns `b""` — `get_output_voltage` does not raise any error; it returns the
decoded empty string. -/
theorem empty_read_timeout_returns_value :
    (get_output_voltage ⟨[], [], false⟩).2 = .ok (.text "") := by
  rfl

/-- C8 (amended): when a read times out with no data, command execution
returns the decoded empty response (the empty string) to the caller instead
of failing. -/
theorem empty_read_decodes_to_empty_string (cmd : Bytes) (w : List Bytes)
    (c : Bool) :
    (executeCommand cmd ⟨w, [], c⟩).2 = .ok (.text "") := by
  simp [executeCommand_eq]
  rfl

/-- C6 (counterexample): `is_output_enabled` writes the bytes of
`":OUTP:STAT? CH1 \n"` — with a space before the line feed — which differ
from the bytes of `":OUTP:STAT? CH1\n"` the claim prescribes. -/
theorem is_output_enabled_command_trailing_space :
    (is_output_enabled ⟨[], [], false⟩).1.written
      = [encodeUtf8 ":OUTP:STAT? CH1 \n"] ∧
    encodeUtf8 ":OUTP:STAT? CH1 \n" ≠ encodeUtf8 ":OUTP:STAT? CH1\n" := by
  constructor
  · rfl
  · decide

/-- C6 (amended): `is_output_enabled` writes to the transport exactly one
byte string, the UTF-8 encoding of `":OUTP:STAT? CH1 "` (with a trailing
space) followed by `"\n"`, and nothing else. -/
theorem is_output_enabled_command_bytes (p : SerialPort) :
    (is_output_enabled p).1.written
      = p.written ++ [encodeUtf8 (":OUTP:STAT? CH1 " ++ "\n")] := by
  simp [is_output_enabled, executeCommand_eq]

/-- C5: `is_output_enabled` returns the Python comparison of the decoded
response with `'ON'`: it is `true` exactly when the decoded value is the
text `"ON"`, and `false` for every other decoded value — any other text
(such as `"OFF"`) and every numeric value. -/
theorem is_output_enabled_iff_ON (resp : Bytes) (w pend : List Bytes)
    (c : Bool) (v : ResponseValue)
    (h : decodeResponse resp.dropLast = .ok v) :
    (is_output_enabled ⟨w, resp :: pend, c⟩).2 = .ok (responseEqON v) ∧
    (responseEqON v = true ↔ v = .text "ON") := by
  constructor
  · simp [is_output_enabled, executeCommand_eq, h, Except.map]
  · cases v with
    | number q => simp [responseEqON]
    | text s => simp [responseEqON]

/-- Witness for C5 at the response line `b"ON\n"`: the result is `true`. -/
theorem is_output_enabled_iff_ON_witness :
    (is_output_enabled ⟨[], [encodeUtf8 "ON\n"], false⟩).2 = .ok true := by
  have h := is_output_enabled_iff_ON (encodeUtf8 "ON\n") [] [] false
    (.text "ON") rfl
  rw [h.1]
  rfl

/-- C1: with known model limits `max_voltage = mv`, `set_output_voltage v`
writes exactly the UTF-8 bytes of `":VOLT "` followed by the formatted value
and a newline when `v ≤ mv`, and writes nothing at all when `v > mv`. -/
theorem set_output_voltage_limit_guard (ps : PowerSupply) (mv v : ℚ)
    (hm : ps.maxVoltage = some mv) (p : SerialPort) :
    (v ≤ mv → (set_output_voltage ps v p).1.written
        = p.written ++ [encodeUtf8 (":VOLT " ++ formatPyFloat v ++ "\n")]) ∧
    (mv < v → (set_output_voltage ps v p).1.written = p.written) := by
  constructor
  · intro hle
    have hg : limitAllows ps.maxVoltage v = true := by
      simp [limitAllows, hm, hle]
    simp [set_output_voltage, hg, executeCommand_eq]
  · intro hlt
    have hg : limitAllows ps.maxVoltage v = false := by
      simp [limitAllows, hm, not_le]
      exact hlt
    simp [set_output_voltage, hg]

/-- Witness for C1 on a DP711 (`max_voltage = 30`): `12.5 ≤ 30` sends the
command, `30.5 > 30` sends nothing. -/
theorem set_output_voltage_limit_guard_witness :
    (set_output_voltage psDP711 (25 / 2) ⟨[], [], false⟩).1.written
      = [encodeUtf8 (":VOLT " ++ formatPyFloat (25 / 2) ++ "\n")] ∧
    (set_output_voltage psDP711 (61 / 2) ⟨[], [], false⟩).1.written = [] := by
  constructor
  · simpa using
      (set_output_voltage_limit_guard psDP711 30 (25 / 2) rfl
        ⟨[], [], false⟩).1 (by norm_num)
  · simpa using
      (set_output_voltage_limit_guard psDP711 30 (61 / 2) rfl
        ⟨[], [], false⟩).2 (by norm_num)

/-- The identification query writes `*IDN?`, consumes one response line, and
splits the decoded text on commas, keeping the first four fields; fewer than
four fields is an `IndexError`. -/
theorem getDeviceIdentification_eq (data : Bytes) (s : String)
    (w pend : List Bytes) (c : Bool)
    (hdec : decodeResponse data.dropLast = .ok (.text s)) :
    getDeviceIdentification ⟨w, data :: pend, c⟩
      = (⟨w ++ [encodeUtf8 "*IDN?\n"], pend, c⟩,
         match pySplitComma s with
         | v0 :: v1 :: v2 :: v3 :: _ => .ok (v0, v1, v2, v3)
         | _ => .error .indexError) := by
  simp [getDeviceIdentification, executeCommand_eq, hdec]
  split <;> simp_all

/-- C4: for the identification response `"RIGOL,DP711,SN123,1.02\n"`,
construction succeeds with no warning, `get_identification` returns
`"RIGOL DP711 1.02"`, and the cached limits are `max_voltage = 30` and
`max_current = 5`. -/
theorem dp711_identification_scenario :
    (initPowerSupply ⟨[], [encodeUtf8 "RIGOL,DP711,SN123,1.02\n"], false⟩).2
      = .ok (psDP711, []) ∧
    get_identification psDP711 = "RIGOL DP711 1.02" ∧
    psDP711.maxVoltage = some 30 ∧ psDP711.maxCurrent = some 5 := by
  refine ⟨?_, rfl, rfl, rfl⟩
  rfl

/-- C3: when the decoded identification reports a model absent from
`MODEL_PARAMETERS`, construction completes with the unsupported-model warning
emitted, both cached limits are `none`, and `set_output_voltage` /
`set_output_current` thereafter send their command for every argument. -/
theorem unknown_model_disables_limits (data : Bytes)
    (s man mdl ser sw : String)
    (hdec : decodeResponse data.dropLast = .ok (.text s))
    (hsplit : pySplitComma s = [man, mdl, ser, sw])
    (hmodel : MODEL_PARAMETERS mdl = none)
    (w pend : List Bytes) (c : Bool) :
    (initPowerSupply ⟨w, data :: pend, c⟩).2
      = .ok (⟨man, mdl, ser, sw, man ++ " " ++ mdl ++ " " ++ sw, none, none⟩,
          ["<WARNING> " ++ mdl ++ " is unsupported!"]) ∧
    (∀ (v : ℚ) (q : SerialPort),
      (set_output_voltage ⟨man, mdl, ser, sw, man ++ " " ++ mdl ++ " " ++ sw,
          none, none⟩ v q).1.written
        = q.written ++ [encodeUtf8 (":VOLT " ++ formatPyFloat v ++ "\n")]) ∧
    (∀ (i : ℚ) (q : SerialPort),
      (set_output_current ⟨man, mdl, ser, sw, man ++ " " ++ mdl ++ " " ++ sw,
          none, none⟩ i q).1.written
        = q.written ++ [encodeUtf8 (":CURR " ++ formatPyFloat i ++ "\n")]) := by
  refine ⟨?_, ?_, ?_⟩
  · have hid := getDeviceIdentification_eq data s w pend c hdec
    simp [initPowerSupply, hid, hsplit, hmodel]
  · intro v q
    simp [set_output_voltage, limitAllows, executeCommand_eq]
  · intro i q
    simp [set_output_current, limitAllows, executeCommand_eq]

/-- Witness for C3 with the unknown model `DP999`. -/
theorem unknown_model_disables_limits_witness :
    (initPowerSupply ⟨[], [encodeUtf8 "ACME,DP999,SN1,1.00\n"], false⟩).2
      = .ok (⟨"ACME", "DP999", "SN1", "1.00", "ACME DP999 1.00", none, none⟩,
          ["<WARNING> DP999 is unsupported!"]) ∧
    (set_output_voltage ⟨"ACME", "DP999", "SN1", "1.00", "ACME DP999 1.00",
        none, none⟩ 1000 ⟨[], [], false⟩).1.written
      = [encodeUtf8 (":VOLT " ++ formatPyFloat 1000 ++ "\n")] := by
  have h := unknown_model_disables_limits (encodeUtf8 "ACME,DP999,SN1,1.00\n")
    "ACME,DP999,SN1,1.00" "ACME" "DP999" "SN1" "1.00" rfl rfl rfl [] [] false
  exact ⟨h.1, by simpa using h.2.1 1000 ⟨[], [], false⟩⟩

/-- C7 (counterexample): the identification response `"A,B,C,D,E\n"` splits
into five comma-separated fields — not exactly four — yet construction
succeeds, using the first four fields (with the unsupported-model warning for
model `B`). -/
theorem five_field_identification_succeeds :
    (initPowerSupply ⟨[], [encodeUtf8 "A,B,C,D,E\n"], false⟩).2
      = .ok (⟨"A", "B", "C", "D", "A B D", none, none⟩,
          ["<WARNING> B is unsupported!"]) := by
  rfl

/-- C7 (amended): construction fails (with an `IndexError`) exactly when the
identification response splits on commas into fewer than four fields; with
four or more fields construction does not raise — it uses the first four
fields. -/
theorem identification_field_count (data : Bytes) (s : String)
    (hdec : decodeResponse data.dropLast = .ok (.text s))
    (w pend : List Bytes) (c : Bool) :
    ((pySplitComma s).length < 4 →
      (initPowerSupply ⟨w, data :: pend, c⟩).2 = .error .indexError) ∧
    (4 ≤ (pySplitComma s).length →
      exceptIsOk (initPowerSupply ⟨w, data :: pend, c⟩).2 = true) := by
  have hid := getDeviceIdentification_eq data s w pend c hdec
  constructor <;> intro hlen <;>
    rcases hsp : pySplitComma s with _ | ⟨a, _ | ⟨b, _ | ⟨d3, _ | ⟨d4, rest⟩⟩⟩⟩ <;>
    rw [hsp] at hid <;>
    simp [hsp] at hlen <;>
    simp [initPowerSupply, hid]
  · exfalso
    omega
  · cases hmp : MODEL_PARAMETERS b <;> simp [hmp, exceptIsOk]

/-- Witness for C7: two fields (`"A,B"`) raise the index error; five fields
(`"V,W,X,Y,Z"`) construct successfully. -/
theorem identification_field_count_witness :
    (initPowerSupply ⟨[], [encodeUtf8 "A,B\n"], false⟩).2
      = .error .indexError ∧
    exceptIsOk (initPowerSupply ⟨[], [encodeUtf8 "V,W,X,Y,Z\n"], false⟩).2
      = true := by
  constructor
  · exact (identification_field_count (encodeUtf8 "A,B\n") "A,B" rfl
      [] [] false).1 (by decide)
  · exact (identification_field_count (encodeUtf8 "V,W,X,Y,Z\n") "V,W,X,Y,Z"
      rfl [] [] false).2 (by decide)

/-- C9: leaving the scoped context — whatever the body's outcome, normal or
exceptional — appends exactly one `:SYST:LOC` command (and nothing else) to
the write log, and whenever the transport ends up closed the `:SYST:LOC`
write is in the log. -/
theorem scoped_exit_sends_syst_loc (α : Type)
    (body : SerialPort → SerialPort × Except PyError α) (p : SerialPort) :
    (runScoped body p).1.written
      = (body p).1.written ++ [encodeUtf8 ":SYST:LOC\n"] ∧
    ((runScoped body p).1.written.count (encodeUtf8 ":SYST:LOC\n")
      = (body p).1.written.count (encodeUtf8 ":SYST:LOC\n") + 1) ∧
    ((runScoped body p).1.closed = true →
      encodeUtf8 ":SYST:LOC\n" ∈ (runScoped body p).1.written) := by
  have h1 : (runScoped body p).1 = (exitPowerSupply (body p).1).1 := by
    simp only [runScoped]
    split <;> rfl
  have h2 := exitPowerSupply_written (body p).1
  refine ⟨?_, ?_, ?_⟩
  · rw [h1, h2]
  · rw [h1, h2]
    simp
  · intro _
    rw [h1, h2]
    simp

/-- Witness for C9 with a trivial body on a fresh port: the write log after
the scope is exactly the one `:SYST:LOC` command. -/
theorem scoped_exit_sends_syst_loc_witness :
    (runScoped (fun q => (q, (Except.ok () : Except PyError Unit)))
        ⟨[], [], false⟩).1.written = [encodeUtf8 ":SYST:LOC\n"] := by
  have h := scoped_exit_sends_syst_loc Unit
    (fun q => (q, (Except.ok () : Except PyError Unit))) ⟨[], [], false⟩
  simpa using h.1
